import Mathlib

/-!
Verification of the docking-workflow core of the repository (the
`DockingInterface` component): result-log parsing, executable-path
validation, obabel command construction, configuration rendering,
script generation and the four-step wizard state machine.

The TypeScript source is shallowly embedded: template-string
interpolation becomes string concatenation; JS numbers that are only
ever interpolated into text are carried as their rendered decimal
strings; `parseFloat` is abstracted as a conversion parameter (IEEE
floats are outside the embedding); React `useState` state becomes an
explicit state record with an action step function.
-/

namespace Docking

/-! ## Character classes (JS semantics) -/

/-- The JavaScript whitespace set: the characters matched by the regex
class `\s` and removed by `String.prototype.trim` (ECMAScript
WhiteSpace plus LineTerminator). -/
def jsSpace (c : Char) : Bool :=
  c.toNat ∈ ([9, 10, 11, 12, 13, 32, 160, 0x1680, 0x2028, 0x2029,
      0x202F, 0x205F, 0x3000, 0xFEFF] : List Nat)
    || (0x2000 ≤ c.toNat && c.toNat ≤ 0x200A)

/-- The character class `[-\d.]` of the result-marker regex in
`parseVinaResult`. -/
def numChar (c : Char) : Bool :=
  c = '-' || c = '.' || ('0' ≤ c && c ≤ '9')

/-- The illegal-character class `[<>"|?*]` tested by `validatePath`. -/
def illegalChar (c : Char) : Bool :=
  c = '<' || c = '>' || c = '"' || c = '|' || c = '?' || c = '*'

/-! ## Generic list-of-characters utilities -/

/-- Remove a literal from the front of a character list, or fail. -/
def dropLit : List Char → List Char → Option (List Char)
  | [], cs => some cs
  | _ :: _, [] => none
  | p :: ps, c :: cs => if c = p then dropLit ps cs else none

/-- JavaScript `content.split('\n')`, on character lists: the list of
newline-separated segments (one more segment than there are newlines;
an empty input yields one empty segment). -/
def splitNl : List Char → List (List Char)
  | [] => [[]]
  | c :: cs =>
    if c = '\n' then [] :: splitNl cs
    else
      match splitNl cs with
      | [] => [[c]]
      | h :: t => (c :: h) :: t

/-- Join segments, terminating every segment with a newline (the shape
of the generated configuration text, which ends in a newline). -/
def joinNl : List (List Char) → List Char
  | [] => []
  | l :: ls => l ++ '\n' :: joinNl ls

/-- Split a line at the first occurrence of the literal `" = "`,
returning the text before it (the key) and after it (the value). -/
def kvSplit : List Char → Option (List Char × List Char)
  | [] => none
  | c :: cs =>
    match dropLit [' ', '=', ' '] (c :: cs) with
    | some rest => some ([], rest)
    | none =>
      match kvSplit cs with
      | some (k, v) => some (c :: k, v)
      | none => none

/-- The key/value pairs of a configuration text, in order of
appearance: each newline-separated line that contains the separator
`" = "` contributes its key and value. -/
def kvPairs (s : String) : List (List Char × List Char) :=
  (splitNl s.data).filterMap kvSplit

/-- Command-line tokenisation with double-quote grouping: a space
separates tokens, a double-quoted region contributes its content to
the current token without the quotes.  `inQ` says whether the scan is
inside a quoted region and `cur` is the (possibly empty) token being
accumulated. -/
def shTokAux (inQ : Bool) (cur : List Char) : List Char → List (List Char)
  | [] => if cur = [] then [] else [cur]
  | c :: cs =>
    if c = '"' then shTokAux (!inQ) cur cs
    else if inQ then shTokAux inQ (cur ++ [c]) cs
    else if c = ' ' then
      (if cur = [] then shTokAux false [] cs else cur :: shTokAux false [] cs)
    else shTokAux false (cur ++ [c]) cs

/-- The token list a shell-style reader extracts from a command
string. -/
def shellTokens (s : String) : List (List Char) :=
  shTokAux false [] s.data

/-- JavaScript `s.replace(/"/g, '')`: remove every double quote. -/
def stripQuotes (s : String) : String :=
  ⟨s.data.filter (fun c => c ≠ '"')⟩

/-- JavaScript `s.trim()`: remove `jsSpace` characters from both
ends. -/
def trimJS (s : String) : String :=
  ⟨(((s.data.dropWhile jsSpace).reverse.dropWhile jsSpace)).reverse⟩

/-! ## Data model (from `types.ts`) -/

/-- The `forceFieldType` union of `PreparationSteps`. -/
inductive ForceField
  | mmff94
  | uff
  | gaff
  | ghemical
deriving DecidableEq

/-- The string the source interpolates for a force-field choice. -/
def ForceField.str : ForceField → String
  | .mmff94 => "mmff94"
  | .uff => "uff"
  | .gaff => "gaff"
  | .ghemical => "ghemical"

/-- The `ligandChargeMethod` union of `PreparationSteps`. -/
inductive ChargeMethod
  | gasteiger
  | mmff94
  | qtpie
  | qeq
deriving DecidableEq

/-- The string the source interpolates for a charge-method choice. -/
def ChargeMethod.str : ChargeMethod → String
  | .gasteiger => "gasteiger"
  | .mmff94 => "mmff94"
  | .qtpie => "qtpie"
  | .qeq => "qeq"

/-- Structure `PreparationSteps` of `types.ts`.  `phLevel` is a JS number the
source only ever interpolates into text, so it is carried as its
rendered decimal string. -/
structure PreparationSteps where
  removeWater : Bool
  addForceField : Bool
  forceFieldType : ForceField
  proteinProtonate : Bool
  phLevel : String
  ligandProtonate : Bool
  ligandChargeMethod : ChargeMethod
  ligandMinimization : Bool
deriving DecidableEq

/-- Structure `GridBox` of `types.ts`; the six JS numbers are carried as their
rendered decimal strings (they are only ever interpolated). -/
structure GridBox where
  center_x : String
  center_y : String
  center_z : String
  size_x : String
  size_y : String
  size_z : String
deriving DecidableEq

/-- Structure `DockingConfig` of `types.ts` (Vina search parameters), carried as
rendered decimal strings. -/
structure DockingConfig where
  exhaustiveness : String
  numModes : String
  energyRange : String
deriving DecidableEq

/-- Structure `DockingResult` of `types.ts`.  The three numeric fields are
produced by `parseFloat` on the matched substrings; the conversion is
abstracted over the value type `α`. -/
structure DockingResult (α : Type) where
  mode : Nat
  affinity : α
  rmsdLb : α
  rmsdUb : α
deriving DecidableEq

/-! ## Fixed artifact names (from `generateDockingPackage`) -/

def receptorRaw : String := "receptor_input.pdb"
def ligandRaw : String := "ligand_input.pdb"
def receptorPrep : String := "receptor_prepared.pdbqt"
def ligandPrep : String := "ligand_prepared.pdbqt"
def outName : String := "output.pdbqt"
def logName : String := "vina.log"

/-! ## Result parsing (`parseVinaResult`) -/

/-- Attempt to match the regex
`REMARK VINA RESULT:\s+([-\d.]+)\s+([-\d.]+)\s+([-\d.]+)` at the start
of the character list, returning the three captured groups.  The
greedy classes are disjoint, so maximal munch is exactly the regex
semantics. -/
def matchAt (l : List Char) : Option (List Char × List Char × List Char) :=
  match dropLit ("REMARK VINA RESULT:").data l with
  | none => none
  | some r0 =>
    let s1 := r0.takeWhile jsSpace
    let r1 := r0.dropWhile jsSpace
    let n1 := r1.takeWhile numChar
    let r2 := r1.dropWhile numChar
    let s2 := r2.takeWhile jsSpace
    let r3 := r2.dropWhile jsSpace
    let n2 := r3.takeWhile numChar
    let r4 := r3.dropWhile numChar
    let s3 := r4.takeWhile jsSpace
    let r5 := r4.dropWhile jsSpace
    let n3 := r5.takeWhile numChar
    if s1 = [] ∨ n1 = [] ∨ s2 = [] ∨ n2 = [] ∨ s3 = [] ∨ n3 = [] then none
    else some (n1, n2, n3)

/-- JavaScript `line.match(remarkRegex)`: search for the first position in the
line at which the pattern matches, scanning left to right. -/
def matchLine : List Char → Option (List Char × List Char × List Char)
  | [] => none
  | c :: cs =>
    match matchAt (c :: cs) with
    | some r => some r
    | none => matchLine cs

/-- The `forEach` loop of `parseVinaResult`: fold over the lines with
the running `mode` counter. -/
def parseGo {α : Type} (conv : String → α) :
    List (List Char) → Nat → List (DockingResult α)
  | [], _ => []
  | l :: ls, mode =>
    match matchLine l with
    | some (a, b, c) =>
      ⟨mode + 1, conv ⟨a⟩, conv ⟨b⟩, conv ⟨c⟩⟩ :: parseGo conv ls (mode + 1)
    | none => parseGo conv ls mode

/-- Function `parseVinaResult` of the source: split the content on newlines,
scan each line against the result-marker regex, and number the
matches with a running 1-based counter.  `conv` abstracts
`parseFloat`. -/
def parseVinaResult {α : Type} (conv : String → α) (content : String) :
    List (DockingResult α) :=
  parseGo conv (splitNl content.data) 0

/-- Spec-side renumbering function: attach 1-based indices (continuing
from `m`) to a list of captured triples. -/
def numberFrom {α : Type} (conv : String → α) :
    Nat → List (List Char × List Char × List Char) → List (DockingResult α)
  | _, [] => []
  | m, (a, b, c) :: ts => ⟨m + 1, conv ⟨a⟩, conv ⟨b⟩, conv ⟨c⟩⟩ :: numberFrom conv (m + 1) ts

/-- The value fields of a parsed record, without the mode number. -/
def valTriple {α : Type} (r : DockingResult α) : α × α × α :=
  (r.affinity, r.rmsdLb, r.rmsdUb)

/-! ## Path validation (`validatePath`) -/

def illegalMsg : String := "Path contains illegal characters (< > \" | ? *)"

def directoryMsg : String :=
  "Path should point to the executable file (e.g., vina.exe), not a directory."

/-- Last character of a string equals `c` (the source's
`path.endsWith('\\') || path.endsWith('/')` on one-character
suffixes). -/
def endsWithChar (s : String) (c : Char) : Bool :=
  s.data.getLast? = some c

/-- Function `validatePath` of the source, as the error message it stores in
the `pathError` state (`""` meaning no error).  The checks run in the
source's order: empty is valid, then the illegal-character test, then
the trailing-separator test. -/
def validatePath (path : String) : String :=
  if path = "" then ""
  else if path.data.any illegalChar then illegalMsg
  else if endsWithChar path '\\' || endsWithChar path '/' then directoryMsg
  else ""

/-! ## Command construction (`generateDockingPackage`, step 3) -/

/-- The receptor preparation command `obabelProt` of the source:
`obabel "receptor_input.pdb" -O "receptor_prepared.pdbqt"` followed by
the conditional fragments in the source's order. -/
def obabelProt (p : PreparationSteps) : String :=
  "obabel \"" ++ receptorRaw ++ "\" -O \"" ++ receptorPrep ++ "\""
    ++ (if p.removeWater then " -d" else "")
    ++ (if p.proteinProtonate then " -p " ++ p.phLevel else "")
    ++ (if p.addForceField then " --minimize --ff " ++ p.forceFieldType.str else "")

/-- The ligand preparation command `obabelLig` of the source. -/
def obabelLig (p : PreparationSteps) : String :=
  "obabel \"" ++ ligandRaw ++ "\" -O \"" ++ ligandPrep ++ "\""
    ++ (if p.ligandProtonate then " -p " ++ p.phLevel else "")
    ++ (if p.ligandMinimization then " --gen3d" else "")
    ++ " --partialcharge " ++ p.ligandChargeMethod.str

/-! ## Configuration rendering (`generateDockingPackage`, step 1) -/

/-- The `configContent` template string of the source, verbatim. -/
def configContent (gb : GridBox) (dc : DockingConfig) : String :=
  "receptor = " ++ receptorPrep ++ "\nligand = " ++ ligandPrep
    ++ "\n\ncenter_x = " ++ gb.center_x
    ++ "\ncenter_y = " ++ gb.center_y
    ++ "\ncenter_z = " ++ gb.center_z
    ++ "\n\nsize_x = " ++ gb.size_x
    ++ "\nsize_y = " ++ gb.size_y
    ++ "\nsize_z = " ++ gb.size_z
    ++ "\n\nexhaustiveness = " ++ dc.exhaustiveness
    ++ "\nnum_modes = " ++ dc.numModes
    ++ "\nenergy_range = " ++ dc.energyRange
    ++ "\n\nout = " ++ outName
    ++ "\nlog = " ++ logName ++ "\n"

/-! ## Generated scripts (`generateDockingPackage`, steps 3 and 4) -/

/-- The `prepBat` template (`prepare_structures.bat`), verbatim,
embedding the two computed obabel command strings. -/
def prepBat (p : PreparationSteps) : String :=
  "\n@echo off\necho Running Chemical Preparation (Requires OpenBabel)...\necho Protein: "
    ++ p.forceFieldType.str ++ " forcefield, pH " ++ p.phLevel
    ++ "\necho Ligand: " ++ p.ligandChargeMethod.str ++ " charges\n\nREM Check for OpenBabel\nwhere obabel >nul 2>nul\nif %errorlevel% neq 0 (\n    echo [ERROR] OpenBabel (obabel) not found in PATH.\n    echo Please install OpenBabel to perform automated preparation.\n    echo Defaulting to using input files as pdbqt if converted manually.\n    copy \""
    ++ receptorRaw ++ "\" \"" ++ receptorPrep ++ "\"\n    copy \""
    ++ ligandRaw ++ "\" \"" ++ ligandPrep
    ++ "\"\n) else (\n    echo Processing Receptor...\n    "
    ++ obabelProt p
    ++ "\n    echo Processing Ligand...\n    "
    ++ obabelLig p
    ++ "\n)\necho Preparation Done.\n"

/-- The `batContent` template (`run_job.bat`), verbatim, embedding the
trimmed user path (`cleanPath`). -/
def batContent (cleanPath : String) : String :=
  "\n@echo off\nsetlocal\necho ========================================\necho      BioDock AI - AutoDock Vina Job\necho ========================================\n\ncall prepare_structures.bat\n\nREM User Configured Executable Path\nset \"USER_PATH="
    ++ cleanPath
    ++ "\"\nset \"VINA_EXEC=vina\"\n\nif not \"%USER_PATH%\"==\"\" (\n    if exist \"%USER_PATH%\" (\n        set \"VINA_EXEC=%USER_PATH%\"\n    ) else (\n        echo [WARNING] User path not found: \"%USER_PATH%\"\n        echo Falling back to \u0027vina\u0027 command...\n    )\n)\n\necho.\necho Starting Docking with: \"%VINA_EXEC%\"\n\n\"%VINA_EXEC%\" --config config.txt\n\nif %errorlevel% neq 0 (\n    echo [FAILURE] Docking execution failed.\n    echo Check vina.log for details.\n    pause\n    exit /b %errorlevel%\n)\n\necho [SUCCESS] Docking complete! Output: output.pdbqt\npause\n"

/-- The `shContent` template (`run_job.sh`), verbatim: it embeds the
quote-stripped renderings of the same two computed obabel command
strings (`obabelProt.replace(/"/g, '')` and the ligand analogue) and
the trimmed user path. -/
def shContent (p : PreparationSteps) (cleanPath : String) : String :=
  "\n#!/bin/bash\necho \"BioDock AI - AutoDock Vina Job\"\n\n# 1. Preparation\nif command -v obabel &> /dev/null; then\n    echo \"Preparing structures with OpenBabel...\"\n    "
    ++ stripQuotes (obabelProt p)
    ++ "\n    "
    ++ stripQuotes (obabelLig p)
    ++ "\nelse\n    echo \"[WARNING] OpenBabel not found. Please install \u0027openbabel\u0027 package.\"\n    echo \"Assuming inputs are already prepared PDBQTs...\"\n    cp "
    ++ receptorRaw ++ " " ++ receptorPrep
    ++ "\n    cp " ++ ligandRaw ++ " " ++ ligandPrep
    ++ "\nfi\n\n# 2. Docking\nVINA_EXEC=\"vina\"\nUSER_PATH=\""
    ++ cleanPath
    ++ "\"\n\nif [ ! -z \"$USER_PATH\" ] && [ -f \"$USER_PATH\" ]; then\n    VINA_EXEC=\"$USER_PATH\"\nfi\n\necho \"Running Vina...\"\n$VINA_EXEC --config config.txt\n\nif [ $? -eq 0 ]; then\n    echo \"Docking complete: output.pdbqt\"\nelse\n    echo \"Docking failed.\"\nfi\n"

/-- The executable-resolution logic both generated run scripts encode:
use the embedded user path only when it is nonempty and exists on the
execution host; otherwise the bare command name `vina` from the
ambient search path. -/
def resolveExec (userPath : String) (existsOnHost : Bool) : String :=
  if userPath ≠ "" ∧ existsOnHost then userPath else "vina"

/-! ## The job package (`generateDockingPackage`, zip assembly) -/

/-- The zip archive built by `generateDockingPackage`: a name and the
ordered list of (entry name, entry content) pairs, assembled as one
value. -/
structure JobPackage where
  name : String
  entries : List (String × String)
deriving DecidableEq

/-! ## Workflow state (`DockingInterface` component state) -/

/-- The `useState` fields of the `DockingInterface` component that the
workflow logic reads or writes.  File inputs are carried as their text
content (`none` = not uploaded).  The transient `isProcessing`,
`progress` and `processStatus` indicators always settle back to their
idle values within the action that raises them, so they are not
tracked. -/
structure AppState where
  activeStep : Nat
  proteinFile : Option String
  ligandFile : Option String
  resultFile : Option String
  vinaPath : String
  pathError : String
  prepSteps : PreparationSteps
  gridBox : GridBox
  dockingConfig : DockingConfig
  results : List (DockingResult String)
deriving DecidableEq

/-- The initial component state (the `useState` defaults; the numeric
defaults are carried as their rendered decimal strings). -/
def initState : AppState where
  activeStep := 1
  proteinFile := none
  ligandFile := none
  resultFile := none
  vinaPath := ""
  pathError := ""
  prepSteps :=
    { removeWater := true, proteinProtonate := true, phLevel := "7.4",
      addForceField := true, forceFieldType := .mmff94,
      ligandProtonate := true, ligandChargeMethod := .gasteiger,
      ligandMinimization := true }
  gridBox :=
    { center_x := "0", center_y := "0", center_z := "0",
      size_x := "20", size_y := "20", size_z := "20" }
  dockingConfig := { exhaustiveness := "8", numModes := "9", energyRange := "3" }
  results := []

/-- The discrete user actions the `DockingInterface` UI offers.  The
`date` argument of `generatePackage` is the external clock input
(`new Date().toISOString().slice(0,10)`). -/
inductive Action
  | uploadProtein (content : String)
  | uploadLigand (content : String)
  | uploadResult (content : String)
  | setVinaPath (value : String)
  | setPrepSteps (p : PreparationSteps)
  | setGridBox (g : GridBox)
  | setDockingConfig (d : DockingConfig)
  | proceedToPreparation
  | backToInput
  | confirmPreparation
  | backToPreparation
  | confirmGrid
  | generatePackage (date : String)
deriving DecidableEq

/-- Assemble the zip archive of `generateDockingPackage` (its `try`
body after the path-error guard): the configuration text, the raw
input files under the standardized names when uploaded, the single
OpenBabel preparation batch script, and the two run scripts, in the
source's `zip.file` order; the archive name embeds the supplied ISO
date. -/
def mkPackage (s : AppState) (date : String) : JobPackage where
  name := "docking_job_" ++ date ++ ".zip"
  entries :=
    [("config.txt", configContent s.gridBox s.dockingConfig)]
      ++ (match s.proteinFile with
          | some t => [(receptorRaw, t)]
          | none => [])
      ++ (match s.ligandFile with
          | some t => [(ligandRaw, t)]
          | none => [])
      ++ [("prepare_structures.bat", prepBat s.prepSteps),
          ("run_job.bat", batContent (trimJS s.vinaPath)),
          ("run_job.sh", shContent s.prepSteps (trimJS s.vinaPath))]

/-- One user action applied to the component state: the next state and
the package emitted (for `generatePackage` without a pending path
error), mirroring the handlers and `disabled` guards of the rendered
UI.  Actions whose controls are not rendered at the current step, or
whose buttons are disabled, leave the state unchanged. -/
def stepAct (s : AppState) : Action → AppState × Option JobPackage
  | .uploadProtein content =>
    if s.activeStep = 1 then ({ s with proteinFile := some content }, none) else (s, none)
  | .uploadLigand content =>
    if s.activeStep = 1 then ({ s with ligandFile := some content }, none) else (s, none)
  | .uploadResult content =>
    if s.activeStep = 4 then
      ({ s with resultFile := some content,
                results := parseVinaResult (fun v => v) content }, none)
    else (s, none)
  | .setVinaPath value =>
    if s.activeStep = 4 then
      ({ s with vinaPath := value, pathError := validatePath value }, none)
    else (s, none)
  | .setPrepSteps p =>
    if s.activeStep = 2 then ({ s with prepSteps := p }, none) else (s, none)
  | .setGridBox g =>
    if s.activeStep = 3 then ({ s with gridBox := g }, none) else (s, none)
  | .setDockingConfig d =>
    if s.activeStep = 3 then ({ s with dockingConfig := d }, none) else (s, none)
  | .proceedToPreparation =>
    if s.activeStep = 1 ∧ s.proteinFile.isSome ∧ s.ligandFile.isSome then
      ({ s with activeStep := 2 }, none)
    else (s, none)
  | .backToInput =>
    if s.activeStep = 2 then ({ s with activeStep := 1 }, none) else (s, none)
  | .confirmPreparation =>
    if s.activeStep = 2 then ({ s with activeStep := 3 }, none) else (s, none)
  | .backToPreparation =>
    if s.activeStep = 3 then ({ s with activeStep := 2 }, none) else (s, none)
  | .confirmGrid =>
    if s.activeStep = 3 then ({ s with activeStep := 4 }, none) else (s, none)
  | .generatePackage date =>
    if s.activeStep = 4 then
      if s.pathError ≠ "" then (s, none)
      else ({ s with activeStep := 4 }, some (mkPackage s date))
    else (s, none)

/-- The component states reachable from the initial state by user
actions. -/
inductive Reachable : AppState → Prop
  | init : Reachable initState
  | next {s : AppState} (a : Action) : Reachable s → Reachable (stepAct s a).1

/-- A concrete execution-step state: both inputs uploaded and the
workflow advanced to the run step (the state in which package
generation is offered). -/
def demoState : AppState :=
  { initState with
      activeStep := 4,
      proteinFile := some "RECEPTOR PDB TEXT",
      ligandFile := some "LIGAND PDB TEXT" }

/-! ## Spec-side descriptions (what the claims say) -/

/-- A character list that stays inside one command-line token: no
double quote and no space. -/
def okTok (l : List Char) : Prop := ∀ c ∈ l, c ≠ '"' ∧ c ≠ ' '

/-- The receptor command's token list as the spec's truth table
describes it: the fixed invocation, then a delete-water flag iff
solvent removal is enabled, a protonate-at-pH flag iff protonation is
enabled, and a minimize-with-force-field flag iff force-field addition
is enabled. -/
def protTokens (p : PreparationSteps) : List (List Char) :=
  ["obabel".data, receptorRaw.data, "-O".data, receptorPrep.data]
    ++ (if p.removeWater then [("-d").data] else [])
    ++ (if p.proteinProtonate then [("-p").data, p.phLevel.data] else [])
    ++ (if p.addForceField then
          [("--minimize").data, ("--ff").data, p.forceFieldType.str.data]
        else [])

/-- The ligand command's token list as the spec's truth table
describes it: the fixed invocation, then a protonate-at-pH flag iff
ligand protonation is enabled, a generate-3D flag iff minimization is
enabled, and always the partial-charge-method flag. -/
def ligTokens (p : PreparationSteps) : List (List Char) :=
  ["obabel".data, ligandRaw.data, "-O".data, ligandPrep.data]
    ++ (if p.ligandProtonate then [("-p").data, p.phLevel.data] else [])
    ++ (if p.ligandMinimization then [("--gen3d").data] else [])
    ++ [("--partialcharge").data, p.ligandChargeMethod.str.data]

/-- Quoted regions never contain a space: under this condition,
deleting the double quotes from a command string does not change its
token list.  `b` is the in-quote state the scan starts in. -/
def wq (b : Bool) : List Char → Bool
  | [] => true
  | c :: cs =>
    if c = '"' then wq (!b) cs
    else if b then decide (c ≠ ' ') && wq b cs
    else wq b cs

/-- The configuration text's line structure: the thirteen key-value
lines interleaved with the four blank separator lines, each terminated
by a newline. -/
def configLineList (gb : GridBox) (dc : DockingConfig) : List (List Char) :=
  [("receptor = ").data ++ receptorPrep.data,
   ("ligand = ").data ++ ligandPrep.data,
   [],
   ("center_x = ").data ++ gb.center_x.data,
   ("center_y = ").data ++ gb.center_y.data,
   ("center_z = ").data ++ gb.center_z.data,
   [],
   ("size_x = ").data ++ gb.size_x.data,
   ("size_y = ").data ++ gb.size_y.data,
   ("size_z = ").data ++ gb.size_z.data,
   [],
   ("exhaustiveness = ").data ++ dc.exhaustiveness.data,
   ("num_modes = ").data ++ dc.numModes.data,
   ("energy_range = ").data ++ dc.energyRange.data,
   [],
   ("out = ").data ++ outName.data,
   ("log = ").data ++ logName.data]

/-- The key-value pairs the spec prescribes for the configuration
text: the thirteen fixed keys in the fixed order, the prepared-file
names for receptor and ligand, and every numeric value verbatim. -/
def configPairsSpec (gb : GridBox) (dc : DockingConfig) :
    List (List Char × List Char) :=
  [(("receptor").data, receptorPrep.data),
   (("ligand").data, ligandPrep.data),
   (("center_x").data, gb.center_x.data),
   (("center_y").data, gb.center_y.data),
   (("center_z").data, gb.center_z.data),
   (("size_x").data, gb.size_x.data),
   (("size_y").data, gb.size_y.data),
   (("size_z").data, gb.size_z.data),
   (("exhaustiveness").data, dc.exhaustiveness.data),
   (("num_modes").data, dc.numModes.data),
   (("energy_range").data, dc.energyRange.data),
   (("out").data, outName.data),
   (("log").data, logName.data)]

/-! ## Tokeniser lemmas -/

theorem shTokAux_word (l : List Char) (cur cs : List Char) (h : okTok l) :
    shTokAux false cur (l ++ cs) = shTokAux false (cur ++ l) cs := by
  induction l generalizing cur with
  | nil => simp
  | cons c l ih =>
    obtain ⟨hq, hs⟩ := h c (by simp)
    rw [List.cons_append, shTokAux, if_neg (by simpa using hq),
      if_neg (by simp), if_neg (by simpa using hs),
      ih _ (fun x hx => h x (by simp [hx])), List.append_assoc]
    rfl

theorem shTokAux_fin (l cur : List Char) (h : okTok l) :
    shTokAux false cur l = if cur ++ l = [] then [] else [cur ++ l] := by
  have h2 := shTokAux_word l cur [] h
  rw [List.append_nil] at h2
  rw [h2]
  rfl

theorem ffStr_ok (f : ForceField) : okTok f.str.data := by
  unfold okTok
  cases f <;> decide

theorem ffStr_ne (f : ForceField) : f.str.data ≠ [] := by
  cases f <;> decide

theorem cmStr_ok (m : ChargeMethod) : okTok m.str.data := by
  unfold okTok
  cases m <;> decide

theorem cmStr_ne (m : ChargeMethod) : m.str.data ≠ [] := by
  cases m <;> decide

theorem okTok_noQuote {l : List Char} (h : okTok l) : '"' ∉ l :=
  fun hm => (h _ hm).1 rfl

/-- Deleting double quotes preserves tokenisation whenever no quoted
region contains a space. -/
theorem shTokAux_filter (l : List Char) (b : Bool) (cur : List Char)
    (h : wq b l = true) :
    shTokAux false cur (l.filter (fun c => c ≠ '"')) = shTokAux b cur l := by
  induction l generalizing b cur with
  | nil => cases b <;> rfl
  | cons c cs ih =>
    rw [List.filter_cons]
    by_cases hc : c = '"' <;> by_cases hs : c = ' ' <;> cases b <;>
      simp_all [shTokAux, wq, ih]

/-- Specialisation to strings: quote stripping is token-invariant for
well-quoted command strings. -/
theorem shellTokens_stripQuotes (s : String) (h : wq false s.data = true) :
    shellTokens (stripQuotes s) = shellTokens s :=
  shTokAux_filter s.data false [] h

/-- A quote-free chunk is transparent to `wq` in the unquoted state. -/
theorem wq_append_noQuote (l cs : List Char) (h : '"' ∉ l) :
    wq false (l ++ cs) = wq false cs := by
  induction l with
  | nil => rfl
  | cons c l ih =>
    rw [List.cons_append, wq, if_neg (fun hc => h (by simp [hc])), if_neg (by simp)]
    exact ih (fun hm => h (by simp [hm]))

theorem wq_noQuote (l : List Char) (h : '"' ∉ l) : wq false l = true := by
  have h2 := wq_append_noQuote l [] h
  rw [List.append_nil] at h2
  rw [h2]
  rfl

/-! ## Decompositions of the computed command strings, one per flag
combination, isolating the variable pieces (pH rendering, force-field
name, charge-method name) between concrete literals. -/

theorem protDataTTT (fft : ForceField) (ph : String) (lp : Bool)
    (lcm : ChargeMethod) (lm : Bool) :
    (obabelProt ⟨true, true, fft, true, ph, lp, lcm, lm⟩).data =
      ("obabel \"receptor_input.pdb\" -O \"receptor_prepared.pdbqt\" -d -p ").data
        ++ (ph.data ++ ((" --minimize --ff ").data ++ fft.str.data)) := by
  simp [obabelProt, receptorRaw, receptorPrep, String.data_append]

theorem protDataTTF (fft : ForceField) (ph : String) (lp : Bool)
    (lcm : ChargeMethod) (lm : Bool) :
    (obabelProt ⟨true, false, fft, true, ph, lp, lcm, lm⟩).data =
      ("obabel \"receptor_input.pdb\" -O \"receptor_prepared.pdbqt\" -d -p ").data
        ++ ph.data := by
  simp [obabelProt, receptorRaw, receptorPrep, String.data_append]

theorem protDataTFT (fft : ForceField) (ph : String) (lp : Bool)
    (lcm : ChargeMethod) (lm : Bool) :
    (obabelProt ⟨true, true, fft, false, ph, lp, lcm, lm⟩).data =
      ("obabel \"receptor_input.pdb\" -O \"receptor_prepared.pdbqt\" -d --minimize --ff ").data
        ++ fft.str.data := by
  simp [obabelProt, receptorRaw, receptorPrep, String.data_append]

theorem protDataFTT (fft : ForceField) (ph : String) (lp : Bool)
    (lcm : ChargeMethod) (lm : Bool) :
    (obabelProt ⟨false, true, fft, true, ph, lp, lcm, lm⟩).data =
      ("obabel \"receptor_input.pdb\" -O \"receptor_prepared.pdbqt\" -p ").data
        ++ (ph.data ++ ((" --minimize --ff ").data ++ fft.str.data)) := by
  simp [obabelProt, receptorRaw, receptorPrep, String.data_append]

theorem protDataFTF (fft : ForceField) (ph : String) (lp : Bool)
    (lcm : ChargeMethod) (lm : Bool) :
    (obabelProt ⟨false, false, fft, true, ph, lp, lcm, lm⟩).data =
      ("obabel \"receptor_input.pdb\" -O \"receptor_prepared.pdbqt\" -p ").data
        ++ ph.data := by
  simp [obabelProt, receptorRaw, receptorPrep, String.data_append]

theorem protDataFFT (fft : ForceField) (ph : String) (lp : Bool)
    (lcm : ChargeMethod) (lm : Bool) :
    (obabelProt ⟨false, true, fft, false, ph, lp, lcm, lm⟩).data =
      ("obabel \"receptor_input.pdb\" -O \"receptor_prepared.pdbqt\" --minimize --ff ").data
        ++ fft.str.data := by
  simp [obabelProt, receptorRaw, receptorPrep, String.data_append]

theorem ligDataTT (fft : ForceField) (ph : String) (rw1 aff pp : Bool)
    (lcm : ChargeMethod) :
    (obabelLig ⟨rw1, aff, fft, pp, ph, true, lcm, true⟩).data =
      ("obabel \"ligand_input.pdb\" -O \"ligand_prepared.pdbqt\" -p ").data
        ++ (ph.data ++ ((" --gen3d --partialcharge ").data ++ lcm.str.data)) := by
  simp [obabelLig, ligandRaw, ligandPrep, String.data_append]

theorem ligDataTF (fft : ForceField) (ph : String) (rw1 aff pp : Bool)
    (lcm : ChargeMethod) :
    (obabelLig ⟨rw1, aff, fft, pp, ph, true, lcm, false⟩).data =
      ("obabel \"ligand_input.pdb\" -O \"ligand_prepared.pdbqt\" -p ").data
        ++ (ph.data ++ ((" --partialcharge ").data ++ lcm.str.data)) := by
  simp [obabelLig, ligandRaw, ligandPrep, String.data_append]

theorem ligDataFT (fft : ForceField) (ph : String) (rw1 aff pp : Bool)
    (lcm : ChargeMethod) :
    (obabelLig ⟨rw1, aff, fft, pp, ph, false, lcm, true⟩).data =
      ("obabel \"ligand_input.pdb\" -O \"ligand_prepared.pdbqt\" --gen3d --partialcharge ").data
        ++ lcm.str.data := by
  simp [obabelLig, ligandRaw, ligandPrep, String.data_append]

theorem ligDataFF (fft : ForceField) (ph : String) (rw1 aff pp : Bool)
    (lcm : ChargeMethod) :
    (obabelLig ⟨rw1, aff, fft, pp, ph, false, lcm, false⟩).data =
      ("obabel \"ligand_input.pdb\" -O \"ligand_prepared.pdbqt\" --partialcharge ").data
        ++ lcm.str.data := by
  simp [obabelLig, ligandRaw, ligandPrep, String.data_append]

/-! ## Token structure of the computed command strings -/

/-- The receptor command tokenises exactly to the truth-table token
list, for every flag combination, provided the rendered pH is a
nonempty quote-free space-free string (JS number rendering always
is). -/
theorem shellTokens_obabelProt_eq (p : PreparationSteps)
    (hok : okTok p.phLevel.data) (hne : p.phLevel.data ≠ []) :
    shellTokens (obabelProt p) = protTokens p := by
  obtain ⟨rw1, aff, fft, pp, ph, lp, lcm, lm⟩ := p
  simp only at hok hne
  show shTokAux false [] _ = _
  cases rw1 <;> cases pp <;> cases aff
  · simp +decide [shTokAux, obabelProt, protTokens, receptorRaw, receptorPrep,
      String.data_append]
  · rw [protDataFFT]
    simp +decide [shTokAux]
    rw [shTokAux_fin _ _ (ffStr_ok fft)]
    simp [ffStr_ne fft, protTokens, receptorRaw, receptorPrep]
  · rw [protDataFTF]
    simp +decide [shTokAux]
    rw [shTokAux_fin _ _ hok]
    simp [hne, protTokens, receptorRaw, receptorPrep]
  · rw [protDataFTT]
    simp +decide [shTokAux]
    rw [shTokAux_word ph.data _ _ hok]
    simp +decide [shTokAux, hne]
    rw [shTokAux_fin _ _ (ffStr_ok fft)]
    simp [ffStr_ne fft, protTokens, receptorRaw, receptorPrep]
  · simp +decide [shTokAux, obabelProt, protTokens, receptorRaw, receptorPrep,
      String.data_append]
  · rw [protDataTFT]
    simp +decide [shTokAux]
    rw [shTokAux_fin _ _ (ffStr_ok fft)]
    simp [ffStr_ne fft, protTokens, receptorRaw, receptorPrep]
  · rw [protDataTTF]
    simp +decide [shTokAux]
    rw [shTokAux_fin _ _ hok]
    simp [hne, protTokens, receptorRaw, receptorPrep]
  · rw [protDataTTT]
    simp +decide [shTokAux]
    rw [shTokAux_word ph.data _ _ hok]
    simp +decide [shTokAux, hne]
    rw [shTokAux_fin _ _ (ffStr_ok fft)]
    simp [ffStr_ne fft, protTokens, receptorRaw, receptorPrep]

/-- The ligand command tokenises exactly to the truth-table token
list, for every flag combination; the partial-charge flag is always
the final pair of tokens. -/
theorem shellTokens_obabelLig_eq (p : PreparationSteps)
    (hok : okTok p.phLevel.data) (hne : p.phLevel.data ≠ []) :
    shellTokens (obabelLig p) = ligTokens p := by
  obtain ⟨rw1, aff, fft, pp, ph, lp, lcm, lm⟩ := p
  simp only at hok hne
  show shTokAux false [] _ = _
  cases lp <;> cases lm
  · rw [ligDataFF fft ph rw1 aff pp]
    simp +decide [shTokAux]
    rw [shTokAux_fin _ _ (cmStr_ok lcm)]
    simp [cmStr_ne lcm, ligTokens, ligandRaw, ligandPrep]
  · rw [ligDataFT fft ph rw1 aff pp]
    simp +decide [shTokAux]
    rw [shTokAux_fin _ _ (cmStr_ok lcm)]
    simp [cmStr_ne lcm, ligTokens, ligandRaw, ligandPrep]
  · rw [ligDataTF fft ph rw1 aff pp]
    simp +decide [shTokAux]
    rw [shTokAux_word ph.data _ _ hok]
    simp +decide [shTokAux, hne]
    rw [shTokAux_fin _ _ (cmStr_ok lcm)]
    simp [cmStr_ne lcm, ligTokens, ligandRaw, ligandPrep]
  · rw [ligDataTT fft ph rw1 aff pp]
    simp +decide [shTokAux]
    rw [shTokAux_word ph.data _ _ hok]
    simp +decide [shTokAux, hne]
    rw [shTokAux_fin _ _ (cmStr_ok lcm)]
    simp [cmStr_ne lcm, ligTokens, ligandRaw, ligandPrep]

/-- The receptor command is well quoted: its quoted regions (the two
fixed file names) contain no spaces. -/
theorem wq_obabelProt (p : PreparationSteps) (hok : okTok p.phLevel.data) :
    wq false (obabelProt p).data = true := by
  obtain ⟨rw1, aff, fft, pp, ph, lp, lcm, lm⟩ := p
  simp only at hok
  cases rw1 <;> cases pp <;> cases aff
  · simp +decide [wq, obabelProt, receptorRaw, receptorPrep, String.data_append]
  · rw [protDataFFT]
    simp +decide [wq]
    exact wq_noQuote _ (okTok_noQuote (ffStr_ok fft))
  · rw [protDataFTF]
    simp +decide [wq]
    exact wq_noQuote _ (okTok_noQuote hok)
  · rw [protDataFTT]
    simp +decide [wq]
    rw [wq_append_noQuote _ _ (okTok_noQuote hok)]
    simp +decide [wq]
    exact wq_noQuote _ (okTok_noQuote (ffStr_ok fft))
  · simp +decide [wq, obabelProt, receptorRaw, receptorPrep, String.data_append]
  · rw [protDataTFT]
    simp +decide [wq]
    exact wq_noQuote _ (okTok_noQuote (ffStr_ok fft))
  · rw [protDataTTF]
    simp +decide [wq]
    exact wq_noQuote _ (okTok_noQuote hok)
  · rw [protDataTTT]
    simp +decide [wq]
    rw [wq_append_noQuote _ _ (okTok_noQuote hok)]
    simp +decide [wq]
    exact wq_noQuote _ (okTok_noQuote (ffStr_ok fft))

/-- The ligand command is well quoted. -/
theorem wq_obabelLig (p : PreparationSteps) (hok : okTok p.phLevel.data) :
    wq false (obabelLig p).data = true := by
  obtain ⟨rw1, aff, fft, pp, ph, lp, lcm, lm⟩ := p
  simp only at hok
  cases lp <;> cases lm
  · rw [ligDataFF fft ph rw1 aff pp]
    simp +decide [wq]
    exact wq_noQuote _ (okTok_noQuote (cmStr_ok lcm))
  · rw [ligDataFT fft ph rw1 aff pp]
    simp +decide [wq]
    exact wq_noQuote _ (okTok_noQuote (cmStr_ok lcm))
  · rw [ligDataTF fft ph rw1 aff pp]
    simp +decide [wq]
    rw [wq_append_noQuote _ _ (okTok_noQuote hok)]
    simp +decide [wq]
    exact wq_noQuote _ (okTok_noQuote (cmStr_ok lcm))
  · rw [ligDataTT fft ph rw1 aff pp]
    simp +decide [wq]
    rw [wq_append_noQuote _ _ (okTok_noQuote hok)]
    simp +decide [wq]
    exact wq_noQuote _ (okTok_noQuote (cmStr_ok lcm))

/-! ## Configuration rendering lemmas -/
theorem splitNl_line (l cs : List Char) (h : '\n' ∉ l) :
    splitNl (l ++ '\n' :: cs) = l :: splitNl cs := by
  induction l with
  | nil => simp [splitNl]
  | cons c l ih =>
    rw [List.cons_append, splitNl, if_neg (fun hc => h (by simp [hc])),
      ih (fun hm => h (by simp [hm]))]

theorem splitNl_joinNl (ls : List (List Char)) (h : ∀ l ∈ ls, '\n' ∉ l) :
    splitNl (joinNl ls) = ls ++ [[]] := by
  induction ls with
  | nil => rfl
  | cons l ls ih =>
    rw [joinNl, splitNl_line l _ (h l (by simp)), ih (fun x hx => h x (by simp [hx]))]
    rfl

set_option maxRecDepth 4000 in
theorem configContent_data (gb : GridBox) (dc : DockingConfig) :
    (configContent gb dc).data = joinNl (configLineList gb dc) := by
  simp [configContent, configLineList, joinNl, String.data_append,
    receptorPrep, ligandPrep, outName, logName]



/-- Rendering characterisation of the configuration text. -/
theorem kvPairs_configContent (gb : GridBox) (dc : DockingConfig)
    (hcx : '\n' ∉ gb.center_x.data) (hcy : '\n' ∉ gb.center_y.data)
    (hcz : '\n' ∉ gb.center_z.data) (hsx : '\n' ∉ gb.size_x.data)
    (hsy : '\n' ∉ gb.size_y.data) (hsz : '\n' ∉ gb.size_z.data)
    (hex : '\n' ∉ dc.exhaustiveness.data) (hnm : '\n' ∉ dc.numModes.data)
    (her : '\n' ∉ dc.energyRange.data) :
    kvPairs (configContent gb dc) = configPairsSpec gb dc := by
  have hlines : ∀ l ∈ configLineList gb dc, '\n' ∉ l := by
    intro l hl
    simp only [configLineList, List.mem_cons, List.not_mem_nil, or_false] at hl
    rcases hl with rfl|rfl|rfl|rfl|rfl|rfl|rfl|rfl|rfl|rfl|rfl|rfl|rfl|rfl|rfl|rfl|rfl <;>
      simp +decide [List.mem_append, receptorPrep, ligandPrep, outName, logName,
        hcx, hcy, hcz, hsx, hsy, hsz, hex, hnm, her]
  unfold kvPairs
  rw [configContent_data, splitNl_joinNl _ hlines]
  have e1 : kvSplit (("receptor = ").data ++ receptorPrep.data) =
    some (("receptor").data, receptorPrep.data) := rfl
  have e2 : kvSplit (("ligand = ").data ++ ligandPrep.data) =
    some (("ligand").data, ligandPrep.data) := rfl
  have e3 : kvSplit (("center_x = ").data ++ gb.center_x.data) =
    some (("center_x").data, gb.center_x.data) := rfl
  have e4 : kvSplit (("center_y = ").data ++ gb.center_y.data) =
    some (("center_y").data, gb.center_y.data) := rfl
  have e5 : kvSplit (("center_z = ").data ++ gb.center_z.data) =
    some (("center_z").data, gb.center_z.data) := rfl
  have e6 : kvSplit (("size_x = ").data ++ gb.size_x.data) =
    some (("size_x").data, gb.size_x.data) := rfl
  have e7 : kvSplit (("size_y = ").data ++ gb.size_y.data) =
    some (("size_y").data, gb.size_y.data) := rfl
  have e8 : kvSplit (("size_z = ").data ++ gb.size_z.data) =
    some (("size_z").data, gb.size_z.data) := rfl
  have e9 : kvSplit (("exhaustiveness = ").data ++ dc.exhaustiveness.data) =
    some (("exhaustiveness").data, dc.exhaustiveness.data) := rfl
  have e10 : kvSplit (("num_modes = ").data ++ dc.numModes.data) =
    some (("num_modes").data, dc.numModes.data) := rfl
  have e11 : kvSplit (("energy_range = ").data ++ dc.energyRange.data) =
    some (("energy_range").data, dc.energyRange.data) := rfl
  have e12 : kvSplit (("out = ").data ++ outName.data) =
    some (("out").data, outName.data) := rfl
  have e13 : kvSplit (("log = ").data ++ logName.data) =
    some (("log").data, logName.data) := rfl
  have eb : kvSplit ([] : List Char) = none := rfl
  simp only [configLineList, List.cons_append, List.nil_append]
  simp only [List.cons_append, List.nil_append] at e1 e2 e3 e4 e5 e6 e7 e8 e9 e10 e11 e12 e13
  rw [List.filterMap_cons_some e1, List.filterMap_cons_some e2,
    List.filterMap_cons_none eb, List.filterMap_cons_some e3,
    List.filterMap_cons_some e4, List.filterMap_cons_some e5,
    List.filterMap_cons_none eb, List.filterMap_cons_some e6,
    List.filterMap_cons_some e7, List.filterMap_cons_some e8,
    List.filterMap_cons_none eb, List.filterMap_cons_some e9,
    List.filterMap_cons_some e10, List.filterMap_cons_some e11,
    List.filterMap_cons_none eb, List.filterMap_cons_some e12,
    List.filterMap_cons_some e13, List.filterMap_cons_none eb]
  rfl

/-! ## Result-parser lemmas -/

/-- The counter-passing fold equals spec-side renumbering of the
filtered matches. -/
theorem parseGo_eq {α : Type} (conv : String → α) (ls : List (List Char)) (m : Nat) :
    parseGo conv ls m = numberFrom conv m (ls.filterMap matchLine) := by
  induction ls generalizing m with
  | nil => rfl
  | cons l ls ih =>
    rcases h : matchLine l with _ | ⟨a, b, c⟩ <;>
      simp [parseGo, h, ih, numberFrom]

theorem parseVinaResult_eq {α : Type} (conv : String → α) (content : String) :
    parseVinaResult conv content =
      numberFrom conv 0 ((splitNl content.data).filterMap matchLine) :=
  parseGo_eq conv _ 0

theorem numberFrom_map_mode {α : Type} (conv : String → α) (m : Nat)
    (ts : List (List Char × List Char × List Char)) :
    (numberFrom conv m ts).map DockingResult.mode = List.range' (m + 1) ts.length := by
  induction ts generalizing m with
  | nil => rfl
  | cons t ts ih =>
    obtain ⟨a, b, c⟩ := t
    simp [numberFrom, ih, List.range']

theorem numberFrom_map_val {α : Type} (conv : String → α) (m : Nat)
    (ts : List (List Char × List Char × List Char)) :
    (numberFrom conv m ts).map valTriple =
      ts.map (fun t => (conv ⟨t.1⟩, conv ⟨t.2.1⟩, conv ⟨t.2.2⟩)) := by
  induction ts generalizing m with
  | nil => rfl
  | cons t ts ih =>
    obtain ⟨a, b, c⟩ := t
    simp [numberFrom, valTriple, ih]

theorem numberFrom_length {α : Type} (conv : String → α) (m : Nat)
    (ts : List (List Char × List Char × List Char)) :
    (numberFrom conv m ts).length = ts.length := by
  induction ts generalizing m with
  | nil => rfl
  | cons t ts ih =>
    obtain ⟨a, b, c⟩ := t
    simp [numberFrom, ih]

/-! ## Trim lemmas -/

theorem trimJS_data (s : String) :
    (trimJS s).data = List.rdropWhile jsSpace (s.data.dropWhile jsSpace) := rfl

theorem dropWhile_rdropWhile_dropWhile (l : List Char) :
    (List.rdropWhile jsSpace (l.dropWhile jsSpace)).dropWhile jsSpace =
      List.rdropWhile jsSpace (l.dropWhile jsSpace) := by
  rw [List.dropWhile_eq_self_iff]
  intro hl
  have hpre := List.rdropWhile_prefix jsSpace (l.dropWhile jsSpace)
  have hlen : 0 < (l.dropWhile jsSpace).length :=
    lt_of_lt_of_le hl hpre.length_le
  rw [List.get_eq_getElem, hpre.getElem hl]
  exact List.dropWhile_get_zero_not jsSpace l hlen

/-- JavaScript `trim` is idempotent. -/
theorem trimJS_idem (s : String) : trimJS (trimJS s) = trimJS s := by
  apply String.ext
  rw [trimJS_data, trimJS_data, dropWhile_rdropWhile_dropWhile,
    List.rdropWhile_idempotent]

/-- Trimming a whitespace-only string yields the empty string. -/
theorem trimJS_ws (s : String) (h : ∀ c ∈ s.data, jsSpace c = true) :
    trimJS s = "" := by
  apply String.ext
  rw [trimJS_data, List.dropWhile_eq_nil_iff.mpr (by simpa using h)]
  rfl

/-- A JS whitespace character is none of the illegal path characters
and neither path separator. -/
theorem jsSpace_benign (c : Char) (h : jsSpace c = true) :
    illegalChar c = false ∧ c ≠ '\\' ∧ c ≠ '/' := by
  refine ⟨?_, ?_, ?_⟩
  · have h1 : c ≠ '<' := by rintro rfl; revert h; decide
    have h2 : c ≠ '>' := by rintro rfl; revert h; decide
    have h3 : c ≠ '"' := by rintro rfl; revert h; decide
    have h4 : c ≠ '|' := by rintro rfl; revert h; decide
    have h5 : c ≠ '?' := by rintro rfl; revert h; decide
    have h6 : c ≠ '*' := by rintro rfl; revert h; decide
    simp [illegalChar, h1, h2, h3, h4, h5, h6]
  · rintro rfl; revert h; decide
  · rintro rfl; revert h; decide

/-- A nonempty whitespace-only string passes `validatePath`. -/
theorem validatePath_ws (p : String) (hne : p ≠ "")
    (h : ∀ c ∈ p.data, jsSpace c = true) : validatePath p = "" := by
  unfold validatePath
  rw [if_neg hne, if_neg, if_neg]
  · intro hend
    rcases Bool.or_eq_true _ _ |>.mp hend with h1 | h1 <;>
      [skip; skip] <;>
      · unfold endsWithChar at h1
        have hm := List.mem_of_getLast?_eq_some (by simpa using h1)
        first
          | exact (jsSpace_benign _ (h _ hm)).2.1 rfl
          | exact (jsSpace_benign _ (h _ hm)).2.2 rfl
  · intro hany
    obtain ⟨c, hc, hil⟩ := List.any_eq_true.mp hany
    rw [(jsSpace_benign c (h c hc)).1] at hil
    exact Bool.false_ne_true hil

/-! ## Workflow state-machine lemmas -/

/-- Reachability invariant: at the preparation step or beyond, both
molecule inputs are present. -/
theorem reachable_inputs : ∀ {s : AppState}, Reachable s →
    2 ≤ s.activeStep → s.proteinFile.isSome ∧ s.ligandFile.isSome := by
  intro s h
  induction h with
  | init => intro h2; simp [initState] at h2
  | next a hr ih =>
    cases a <;> dsimp only [stepAct] <;> split_ifs <;> intro h2 <;> simp_all

/-! ## Claim theorems -/

/-- C3: for every `PreparationConfig`, the built receptor command is
the preparation-tool invocation on the raw receptor file targeting the
prepared output name followed, in fixed order, by a delete-water flag
iff solvent removal is enabled, a protonate-at-pH flag carrying the
configured pH iff receptor protonation is enabled, and a
minimize-with-named-force-field flag iff force-field addition is
enabled; the ligand command contains a protonate-at-pH flag (same pH)
iff ligand protonation is enabled, a generate-3D flag iff minimization
is enabled, and always ends with the partial-charge-method flag,
regardless of the protonation flag.  The hypotheses say the rendered
pH string is nonempty and free of quotes and spaces, which every JS
number rendering is. -/
theorem C3_command_truth_table (p : PreparationSteps)
    (hok : okTok p.phLevel.data) (hne : p.phLevel.data ≠ []) :
    shellTokens (obabelProt p) = protTokens p ∧
    shellTokens (obabelLig p) = ligTokens p :=
  ⟨shellTokens_obabelProt_eq p hok hne, shellTokens_obabelLig_eq p hok hne⟩

/-- C3 witness: the truth table instantiated at the default
preparation configuration (pH 7.4, mmff94, gasteiger, all flags
on). -/
theorem C3_command_truth_table_witness :
    shellTokens (obabelProt initState.prepSteps) = protTokens initState.prepSteps ∧
    shellTokens (obabelLig initState.prepSteps) = ligTokens initState.prepSteps :=
  C3_command_truth_table initState.prepSteps (by unfold okTok; decide) (by decide)

set_option maxRecDepth 8000 in
/-- C1: for every `PreparationConfig`, the primary-platform
preparation script embeds the two computed command strings verbatim,
the fallback-platform run script embeds the quote-stripped renderings
of the very same computed strings, and quote stripping does not change
the token sequence either command hands to the preparation tool — so
both scripts invoke exactly the same underlying commands, produced
from one computation rather than re-derived. -/
theorem C1_platform_parity (p : PreparationSteps) (cleanPath : String)
    (hok : okTok p.phLevel.data) :
    ((obabelProt p).data <:+: (prepBat p).data
      ∧ (obabelLig p).data <:+: (prepBat p).data)
    ∧ ((stripQuotes (obabelProt p)).data <:+: (shContent p cleanPath).data
      ∧ (stripQuotes (obabelLig p)).data <:+: (shContent p cleanPath).data)
    ∧ shellTokens (stripQuotes (obabelProt p)) = shellTokens (obabelProt p)
    ∧ shellTokens (stripQuotes (obabelLig p)) = shellTokens (obabelLig p) := by
  refine ⟨⟨?_, ?_⟩, ⟨?_, ?_⟩, ?_, ?_⟩
  · exact ⟨(("\n@echo off\necho Running Chemical Preparation (Requires OpenBabel)...\necho Protein: "
        ++ p.forceFieldType.str ++ " forcefield, pH " ++ p.phLevel
        ++ "\necho Ligand: " ++ p.ligandChargeMethod.str
        ++ " charges\n\nREM Check for OpenBabel\nwhere obabel >nul 2>nul\nif %errorlevel% neq 0 (\n    echo [ERROR] OpenBabel (obabel) not found in PATH.\n    echo Please install OpenBabel to perform automated preparation.\n    echo Defaulting to using input files as pdbqt if converted manually.\n    copy \""
        ++ receptorRaw ++ "\" \"" ++ receptorPrep ++ "\"\n    copy \""
        ++ ligandRaw ++ "\" \"" ++ ligandPrep
        ++ "\"\n) else (\n    echo Processing Receptor...\n    ")).data,
      (("\n    echo Processing Ligand...\n    " ++ obabelLig p
        ++ "\n)\necho Preparation Done.\n")).data,
      by simp [prepBat, String.data_append]⟩
  · exact ⟨(("\n@echo off\necho Running Chemical Preparation (Requires OpenBabel)...\necho Protein: "
        ++ p.forceFieldType.str ++ " forcefield, pH " ++ p.phLevel
        ++ "\necho Ligand: " ++ p.ligandChargeMethod.str
        ++ " charges\n\nREM Check for OpenBabel\nwhere obabel >nul 2>nul\nif %errorlevel% neq 0 (\n    echo [ERROR] OpenBabel (obabel) not found in PATH.\n    echo Please install OpenBabel to perform automated preparation.\n    echo Defaulting to using input files as pdbqt if converted manually.\n    copy \""
        ++ receptorRaw ++ "\" \"" ++ receptorPrep ++ "\"\n    copy \""
        ++ ligandRaw ++ "\" \"" ++ ligandPrep
        ++ "\"\n) else (\n    echo Processing Receptor...\n    "
        ++ obabelProt p ++ "\n    echo Processing Ligand...\n    ")).data,
      (("\n)\necho Preparation Done.\n")).data,
      by simp [prepBat, String.data_append]⟩
  · exact ⟨(("\n#!/bin/bash\necho \"BioDock AI - AutoDock Vina Job\"\n\n# 1. Preparation\nif command -v obabel &> /dev/null; then\n    echo \"Preparing structures with OpenBabel...\"\n    ")).data,
      (("\n    " ++ stripQuotes (obabelLig p)
        ++ "\nelse\n    echo \"[WARNING] OpenBabel not found. Please install \u0027openbabel\u0027 package.\"\n    echo \"Assuming inputs are already prepared PDBQTs...\"\n    cp "
        ++ receptorRaw ++ " " ++ receptorPrep
        ++ "\n    cp " ++ ligandRaw ++ " " ++ ligandPrep
        ++ "\nfi\n\n# 2. Docking\nVINA_EXEC=\"vina\"\nUSER_PATH=\""
        ++ cleanPath
        ++ "\"\n\nif [ ! -z \"$USER_PATH\" ] && [ -f \"$USER_PATH\" ]; then\n    VINA_EXEC=\"$USER_PATH\"\nfi\n\necho \"Running Vina...\"\n$VINA_EXEC --config config.txt\n\nif [ $? -eq 0 ]; then\n    echo \"Docking complete: output.pdbqt\"\nelse\n    echo \"Docking failed.\"\nfi\n")).data,
      by simp [shContent, String.data_append]⟩
  · exact ⟨(("\n#!/bin/bash\necho \"BioDock AI - AutoDock Vina Job\"\n\n# 1. Preparation\nif command -v obabel &> /dev/null; then\n    echo \"Preparing structures with OpenBabel...\"\n    "
        ++ stripQuotes (obabelProt p) ++ "\n    ")).data,
      (("\nelse\n    echo \"[WARNING] OpenBabel not found. Please install \u0027openbabel\u0027 package.\"\n    echo \"Assuming inputs are already prepared PDBQTs...\"\n    cp "
        ++ receptorRaw ++ " " ++ receptorPrep
        ++ "\n    cp " ++ ligandRaw ++ " " ++ ligandPrep
        ++ "\nfi\n\n# 2. Docking\nVINA_EXEC=\"vina\"\nUSER_PATH=\""
        ++ cleanPath
        ++ "\"\n\nif [ ! -z \"$USER_PATH\" ] && [ -f \"$USER_PATH\" ]; then\n    VINA_EXEC=\"$USER_PATH\"\nfi\n\necho \"Running Vina...\"\n$VINA_EXEC --config config.txt\n\nif [ $? -eq 0 ]; then\n    echo \"Docking complete: output.pdbqt\"\nelse\n    echo \"Docking failed.\"\nfi\n")).data,
      by simp [shContent, String.data_append]⟩
  · exact shellTokens_stripQuotes _ (wq_obabelProt p hok)
  · exact shellTokens_stripQuotes _ (wq_obabelLig p hok)

/-- C1 witness: the parity facts instantiated at the default
preparation configuration and the empty executable path. -/
theorem C1_platform_parity_witness :
    ((obabelProt initState.prepSteps).data <:+: (prepBat initState.prepSteps).data
      ∧ (obabelLig initState.prepSteps).data <:+: (prepBat initState.prepSteps).data)
    ∧ ((stripQuotes (obabelProt initState.prepSteps)).data
          <:+: (shContent initState.prepSteps "").data
      ∧ (stripQuotes (obabelLig initState.prepSteps)).data
          <:+: (shContent initState.prepSteps "").data)
    ∧ shellTokens (stripQuotes (obabelProt initState.prepSteps))
        = shellTokens (obabelProt initState.prepSteps)
    ∧ shellTokens (stripQuotes (obabelLig initState.prepSteps))
        = shellTokens (obabelLig initState.prepSteps) :=
  C1_platform_parity initState.prepSteps "" (by unfold okTok; decide)

/-- C2: for every `SearchRegion` and `SearchParameters`, the rendered
configuration text carries exactly the thirteen fixed keys, once each,
in the fixed order, with the receptor and ligand keys bound to the
standardized prepared output names and every value equal to the
input's rendering verbatim (no rounding) — zero or negative extents
included.  The hypotheses only exclude a newline inside a rendered
number, which no JS number rendering contains. -/
theorem C2_config_rendering (gb : GridBox) (dc : DockingConfig)
    (hcx : '\n' ∉ gb.center_x.data) (hcy : '\n' ∉ gb.center_y.data)
    (hcz : '\n' ∉ gb.center_z.data) (hsx : '\n' ∉ gb.size_x.data)
    (hsy : '\n' ∉ gb.size_y.data) (hsz : '\n' ∉ gb.size_z.data)
    (hex : '\n' ∉ dc.exhaustiveness.data) (hnm : '\n' ∉ dc.numModes.data)
    (her : '\n' ∉ dc.energyRange.data) :
    kvPairs (configContent gb dc) = configPairsSpec gb dc ∧
    (kvPairs (configContent gb dc)).map Prod.fst =
      [("receptor").data, ("ligand").data, ("center_x").data, ("center_y").data,
       ("center_z").data, ("size_x").data, ("size_y").data, ("size_z").data,
       ("exhaustiveness").data, ("num_modes").data, ("energy_range").data,
       ("out").data, ("log").data] := by
  have h := kvPairs_configContent gb dc hcx hcy hcz hsx hsy hsz hex hnm her
  refine ⟨h, ?_⟩
  rw [h]
  rfl

/-- C2 witness: a grid box with a negative and a zero extent is
rendered verbatim, with all thirteen keys in order. -/
theorem C2_config_rendering_witness :
    kvPairs (configContent ⟨"0", "0", "0", "-5", "0", "20"⟩ ⟨"8", "9", "3"⟩) =
      configPairsSpec ⟨"0", "0", "0", "-5", "0", "20"⟩ ⟨"8", "9", "3"⟩ ∧
    (kvPairs (configContent ⟨"0", "0", "0", "-5", "0", "20"⟩ ⟨"8", "9", "3"⟩)).map Prod.fst =
      [("receptor").data, ("ligand").data, ("center_x").data, ("center_y").data,
       ("center_z").data, ("size_x").data, ("size_y").data, ("size_z").data,
       ("exhaustiveness").data, ("num_modes").data, ("energy_range").data,
       ("out").data, ("log").data] :=
  C2_config_rendering ⟨"0", "0", "0", "-5", "0", "20"⟩ ⟨"8", "9", "3"⟩
    (by decide) (by decide) (by decide) (by decide) (by decide) (by decide)
    (by decide) (by decide) (by decide)

/-- C4: the parser scans lines in order; every line matching the
result-marker pattern yields exactly one record whose mode is the
running 1-based match count (`List.range' 1 n`) and whose three value
fields are the three captured numbers in order; non-matching lines
yield nothing (the match list is a `filterMap`); a log with zero
matching lines yields `[]` rather than an error; and the spec's
three-line sample log parses to modes 1, 2, 3 with the sample values,
ignoring the mode text elsewhere in the log. -/
theorem C4_parser_functional {α : Type} (conv : String → α) (content : String) :
    (parseVinaResult conv content =
      numberFrom conv 0 ((splitNl content.data).filterMap matchLine))
    ∧ (parseVinaResult conv content).map DockingResult.mode =
        List.range' 1 (parseVinaResult conv content).length
    ∧ ((splitNl content.data).filterMap matchLine = [] →
        parseVinaResult conv content = [])
    ∧ parseVinaResult (fun v => v)
        "MODE 7\nREMARK VINA RESULT:   -8.5      0.0      0.0\nREMARK VINA RESULT:   -7.9      1.2      1.5\nREMARK VINA RESULT:   -7.1      2.0      2.4\n" =
      [⟨1, "-8.5", "0.0", "0.0"⟩, ⟨2, "-7.9", "1.2", "1.5"⟩,
       ⟨3, "-7.1", "2.0", "2.4"⟩] := by
  have h := parseVinaResult_eq conv content
  refine ⟨h, ?_, ?_, by decide⟩
  · rw [h, numberFrom_map_mode, numberFrom_length]
  · intro hz
    rw [h, hz]
    rfl

/-- C4 witness: a log with no matching line parses to the empty
sequence. -/
theorem C4_parser_functional_witness :
    parseVinaResult (fun v => v) "no results in this log\njust text\n" = [] :=
  (C4_parser_functional (fun v => v) "no results in this log\njust text\n").2.2.1
    (by decide)

/-- C9: the parser is deterministic (its output is a function of the
split line list alone, so parsing twice yields identical sequences),
assigns modes 1..n by position, and under any permutation of the lines
the multiset of extracted value triples is unchanged — only the mode
numbers attached to the records change. -/
theorem C9_parser_algebraic {α : Type} (conv : String → α) (c₁ c₂ : String)
    (hperm : (splitNl c₁.data).Perm (splitNl c₂.data)) :
    ((parseVinaResult conv c₁).map valTriple).Perm
        ((parseVinaResult conv c₂).map valTriple)
    ∧ (parseVinaResult conv c₁).map DockingResult.mode =
        List.range' 1 (parseVinaResult conv c₁).length
    ∧ (parseVinaResult conv c₂).map DockingResult.mode =
        List.range' 1 (parseVinaResult conv c₂).length
    ∧ (splitNl c₁.data = splitNl c₂.data →
        parseVinaResult conv c₁ = parseVinaResult conv c₂) := by
  refine ⟨?_, ?_, ?_, ?_⟩
  · rw [parseVinaResult_eq, parseVinaResult_eq, numberFrom_map_val,
      numberFrom_map_val]
    exact (hperm.filterMap matchLine).map _
  · rw [parseVinaResult_eq, numberFrom_map_mode, numberFrom_length]
  · rw [parseVinaResult_eq, numberFrom_map_mode, numberFrom_length]
  · intro he
    unfold parseVinaResult
    rw [he]

/-- C9 witness: swapping the two matching lines of a log permutes the
extracted value triples. -/
theorem C9_parser_algebraic_witness :
    ((parseVinaResult (fun v => v)
        "REMARK VINA RESULT: -1.0 0.0 0.0\nREMARK VINA RESULT: -2.0 1.0 1.5").map
      valTriple).Perm
      ((parseVinaResult (fun v => v)
        "REMARK VINA RESULT: -2.0 1.0 1.5\nREMARK VINA RESULT: -1.0 0.0 0.0").map
      valTriple) :=
  (C9_parser_algebraic (fun v => v)
    "REMARK VINA RESULT: -1.0 0.0 0.0\nREMARK VINA RESULT: -2.0 1.0 1.5"
    "REMARK VINA RESULT: -2.0 1.0 1.5\nREMARK VINA RESULT: -1.0 0.0 0.0"
    (by decide)).1

/-- C5: path validation applies its rules in fixed order with first
match winning and touches no filesystem: the empty string is valid;
otherwise any of the characters in the regex class wins with the
illegal-character error; otherwise a trailing path separator wins with
the directory error; every other string is valid — with the four
example verdicts from the spec. -/
theorem C5_path_validation (p : String) :
    (p = "" → validatePath p = "")
    ∧ (p ≠ "" → (∃ c ∈ p.data, illegalChar c = true) → validatePath p = illegalMsg)
    ∧ (p ≠ "" → (∀ c ∈ p.data, illegalChar c = false) →
        (endsWithChar p '\\' = true ∨ endsWithChar p '/' = true) →
        validatePath p = directoryMsg)
    ∧ (p ≠ "" → (∀ c ∈ p.data, illegalChar c = false) →
        endsWithChar p '\\' = false → endsWithChar p '/' = false →
        validatePath p = "")
    ∧ validatePath "" = "" ∧ validatePath "C:\\vina\\" = directoryMsg
    ∧ validatePath "vina|exe" = illegalMsg
    ∧ validatePath "/usr/local/bin/vina" = "" := by
  refine ⟨?_, ?_, ?_, ?_, by decide, by decide, by decide, by decide⟩
  · intro h
    simp [validatePath, h]
  · intro h1 h2
    obtain ⟨c, hc, hil⟩ := h2
    unfold validatePath
    rw [if_neg h1, if_pos (List.any_eq_true.mpr ⟨c, hc, hil⟩)]
  · intro h1 h2 h3
    unfold validatePath
    rw [if_neg h1, if_neg, if_pos]
    · rcases h3 with h3 | h3 <;> simp [h3]
    · intro hany
      obtain ⟨c, hc, hil⟩ := List.any_eq_true.mp hany
      rw [h2 c hc] at hil
      exact Bool.false_ne_true hil
  · intro h1 h2 h3 h4
    unfold validatePath
    rw [if_neg h1, if_neg, if_neg]
    · simp [h3, h4]
    · intro hany
      obtain ⟨c, hc, hil⟩ := List.any_eq_true.mp hany
      rw [h2 c hc] at hil
      exact Bool.false_ne_true hil

/-- C5 witness: a path that both contains an illegal character and
ends in a separator gets the illegal-character message — the first
rule wins. -/
theorem C5_path_validation_witness : validatePath "x|/" = illegalMsg :=
  (C5_path_validation "x|/").2.1 (by decide) ⟨'|', by decide, by decide⟩

/-- C6 counterexample: at a concrete generation request (both inputs
uploaded, no path error), a package is emitted whose entry list
contains no `prepare_structures.sh` — the preparation script exists in
the primary-platform variant only, so the archive does not contain a
preparation script and a run script in two platform variants each, as
the claim states. -/
theorem C6_package_counterexample :
    (stepAct demoState (.generatePackage "2026-10-11")).2
        = some (mkPackage demoState "2026-10-11")
    ∧ "prepare_structures.sh" ∉
        (mkPackage demoState "2026-10-11").entries.map Prod.fst := by
  constructor
  · rfl
  · simp [mkPackage, demoState, initState, receptorRaw, ligandRaw]

/-- C6 (amended): the archive name embeds the supplied ISO date and
the archive bundles, as one value and under fixed artifact names, the
configuration text, the two raw input files renamed to the
standardized input names (not the user's original filenames), the
single primary-platform preparation script, and run scripts in two
platform variants; the fallback run script inlines the preparation
commands instead of shipping a second preparation script. -/
theorem C6_package_amended (s : AppState) (date pt lt : String)
    (hp : s.proteinFile = some pt) (hl : s.ligandFile = some lt) :
    (mkPackage s date).name = "docking_job_" ++ date ++ ".zip"
    ∧ (mkPackage s date).entries =
      [("config.txt", configContent s.gridBox s.dockingConfig),
       (receptorRaw, pt), (ligandRaw, lt),
       ("prepare_structures.bat", prepBat s.prepSteps),
       ("run_job.bat", batContent (trimJS s.vinaPath)),
       ("run_job.sh", shContent s.prepSteps (trimJS s.vinaPath))] := by
  refine ⟨rfl, ?_⟩
  simp [mkPackage, hp, hl]

/-- C6 witness: the amended contents at the concrete execution-step
state. -/
theorem C6_package_amended_witness :
    (mkPackage demoState "2026-10-11").name = "docking_job_" ++ "2026-10-11" ++ ".zip"
    ∧ (mkPackage demoState "2026-10-11").entries =
      [("config.txt", configContent demoState.gridBox demoState.dockingConfig),
       (receptorRaw, "RECEPTOR PDB TEXT"), (ligandRaw, "LIGAND PDB TEXT"),
       ("prepare_structures.bat", prepBat demoState.prepSteps),
       ("run_job.bat", batContent (trimJS demoState.vinaPath)),
       ("run_job.sh", shContent demoState.prepSteps (trimJS demoState.vinaPath))] :=
  C6_package_amended demoState "2026-10-11" _ _ rfl rfl

/-- C7: in every reachable workflow state at or beyond the preparation
step, both molecule inputs are present, because the advance from the
input step is guarded by the presence of both; when either input is
missing the advance action leaves the state unchanged and emits
nothing — a silently disabled control, with no error field touched. -/
theorem C7_input_guard :
    (∀ s : AppState, Reachable s → 2 ≤ s.activeStep →
        s.proteinFile.isSome ∧ s.ligandFile.isSome)
    ∧ (∀ s : AppState, ¬(s.proteinFile.isSome ∧ s.ligandFile.isSome) →
        stepAct s .proceedToPreparation = (s, none)) := by
  refine ⟨fun s h => reachable_inputs h, fun s h => ?_⟩
  dsimp only [stepAct]
  rw [if_neg]
  intro hcon
  exact h ⟨hcon.2.1, hcon.2.2⟩

/-- C7 witness: the empty initial state cannot advance, and after
uploading both inputs and advancing, the reached preparation-step
state holds both inputs. -/
theorem C7_input_guard_witness :
    stepAct initState .proceedToPreparation = (initState, none)
    ∧ ((stepAct (stepAct (stepAct initState (.uploadProtein "P")).1
            (.uploadLigand "L")).1 .proceedToPreparation).1.proteinFile.isSome
      ∧ (stepAct (stepAct (stepAct initState (.uploadProtein "P")).1
            (.uploadLigand "L")).1 .proceedToPreparation).1.ligandFile.isSome) :=
  ⟨C7_input_guard.2 initState (by decide),
   C7_input_guard.1 _
     (Reachable.next .proceedToPreparation
       (Reachable.next (.uploadLigand "L")
         (Reachable.next (.uploadProtein "P") Reachable.init)))
     (by decide)⟩

/-- C8: with a pending path-validation error, a package-generation
request emits no package and leaves the state — step, files and
configuration — exactly unchanged; with no error (at the run step) it
emits the assembled package; and the navigation actions are entirely
independent of the error field, which they never read or write. -/
theorem C8_path_error_blocks (s : AppState) (date : String) :
    (s.pathError ≠ "" → stepAct s (.generatePackage date) = (s, none))
    ∧ (s.activeStep = 4 → s.pathError = "" →
        (stepAct s (.generatePackage date)).2 = some (mkPackage s date)
        ∧ (stepAct s (.generatePackage date)).1 = { s with activeStep := 4 })
    ∧ (∀ e : String, ∀ a ∈ ([.proceedToPreparation, .backToInput,
          .confirmPreparation, .backToPreparation, .confirmGrid] : List Action),
        stepAct { s with pathError := e } a
          = ({ (stepAct s a).1 with pathError := e }, (stepAct s a).2)) := by
  refine ⟨?_, ?_, ?_⟩
  · intro h
    dsimp only [stepAct]
    split_ifs <;> simp_all
  · intro h4 he
    dsimp only [stepAct]
    rw [if_pos h4, if_neg (by simp [he])]
    exact ⟨rfl, rfl⟩
  · intro e a ha
    fin_cases ha <;> dsimp only [stepAct] <;> split_ifs <;> rfl

/-- C8 witness: at the execution step with a pending error the request
is a no-op; with the error cleared it emits the package; and a
navigation action behaves identically under an injected error. -/
theorem C8_path_error_blocks_witness :
    (stepAct { demoState with pathError := "bad" } (.generatePackage "2026-10-11")
        = ({ demoState with pathError := "bad" }, none))
    ∧ (stepAct demoState (.generatePackage "2026-10-11")).2
        = some (mkPackage demoState "2026-10-11")
    ∧ stepAct { demoState with pathError := "bad" } .backToInput
        = ({ (stepAct demoState .backToInput).1 with pathError := "bad" },
           (stepAct demoState .backToInput).2) :=
  ⟨(C8_path_error_blocks { demoState with pathError := "bad" } "2026-10-11").1
      (by decide),
   ((C8_path_error_blocks demoState "2026-10-11").2.1 rfl rfl).1,
   (C8_path_error_blocks demoState "2026-10-11").2.2 "bad" .backToInput
     (by decide)⟩

/-- C10: the reference embedded into both generated run scripts is the
whitespace-trimmed path (the package depends only on the trimmed
path), while validation runs on the untrimmed string the user typed;
consequently a whitespace-only path passes validation yet trims to the
empty string, so both scripts embed the empty string and resolve to
the bare command name. -/
theorem C10_trim_asymmetry (s : AppState) (p : String) (date : String) :
    (mkPackage s date = mkPackage { s with vinaPath := trimJS s.vinaPath } date)
    ∧ (s.activeStep = 4 →
        (stepAct s (.setVinaPath p)).1.vinaPath = p
        ∧ (stepAct s (.setVinaPath p)).1.pathError = validatePath p)
    ∧ (p ≠ "" → (∀ c ∈ p.data, jsSpace c = true) →
        validatePath p = "" ∧ trimJS p = ""
        ∧ ∀ ex : Bool, resolveExec (trimJS p) ex = "vina") := by
  refine ⟨?_, ?_, ?_⟩
  · simp [mkPackage, trimJS_idem]
  · intro h4
    dsimp only [stepAct]
    rw [if_pos h4]
    exact ⟨rfl, rfl⟩
  · intro hne hws
    refine ⟨validatePath_ws p hne hws, trimJS_ws p hws, ?_⟩
    intro ex
    simp [resolveExec, trimJS_ws p hws]

/-- C10 witness: the single-space path passes validation, trims to the
empty string, and resolves to the bare command name; the package is
invariant under pre-trimming the stored path. -/
theorem C10_trim_asymmetry_witness :
    (mkPackage demoState "2026-10-11"
      = mkPackage { demoState with vinaPath := trimJS demoState.vinaPath } "2026-10-11")
    ∧ ((stepAct demoState (.setVinaPath " ")).1.vinaPath = " "
      ∧ (stepAct demoState (.setVinaPath " ")).1.pathError = validatePath " ")
    ∧ (validatePath " " = "" ∧ trimJS " " = ""
      ∧ resolveExec (trimJS " ") true = "vina") :=
  ⟨(C10_trim_asymmetry demoState " " "2026-10-11").1,
   (C10_trim_asymmetry demoState " " "2026-10-11").2.1 rfl,
   let h := (C10_trim_asymmetry demoState " " "2026-10-11").2.2
     (by decide) (by decide)
   ⟨h.1, h.2.1, h.2.2 true⟩⟩

end Docking
